import Mathlib

/-!
Verification development for the Agent-First Development (AFD) core:
the structured command-result / error model, the metadata value types,
the mock transport, and the CLI output formatting layer.

The CLI formatting layer is embedded from `src/afd/cli/output.py`.
The core library modules (`afd.core.errors`, `afd.core.metadata`, the
command-result model and `afd.transports`) are not present in the
source tree; their behaviour is modelled from the specification,
pinned where possible by the repository's test suite
(`tests/test_errors.py`, `tests/test_metadata.py`,
`tests/test_transports.py`) and examples.
-/

namespace AFD

/-- JSON-compatible Python values as they flow through the AFD API:
payloads, argument mappings, `details` mappings, mock responses. -/
inductive Value where
  | null : Value
  | bool (b : Bool) : Value
  | int (n : Int) : Value
  | str (s : String) : Value
  | list (xs : List Value) : Value
  | dict (kvs : List (String × Value)) : Value
deriving Repr

mutual

/-- Python `str(...)` on a JSON-like value (used by the formatting layer
and by error wrapping). String quoting inside containers is elided;
none of the verified properties depend on the exact rendering. -/
def pyStr : Value → String
  | .null => "None"
  | .bool true => "True"
  | .bool false => "False"
  | .int n => toString n
  | .str s => s
  | .list xs => "[" ++ pyStrList xs ++ "]"
  | .dict kvs => "\x7b" ++ pyStrDict kvs ++ "\x7d"

/-- Comma-separated rendering of a list of values. -/
def pyStrList : List Value → String
  | [] => ""
  | [x] => pyStr x
  | x :: xs => pyStr x ++ ", " ++ pyStrList xs

/-- Comma-separated rendering of a key/value mapping. -/
def pyStrDict : List (String × Value) → String
  | [] => ""
  | [(k, v)] => k ++ ": " ++ pyStr v
  | (k, v) :: kvs => k ++ ": " ++ pyStr v ++ ", " ++ pyStrDict kvs

end

/-- Modelled from the spec: `CommandError` (module `afd.core.errors`,
absent from the source tree) — structured failure detail with code,
message, optional suggestion, retryable flag, details mapping, and a
cause that is either a nested `CommandError` or a plain string summary
of a foreign error. -/
inductive CommandError where
  | mk (code : String) (message : String) (suggestion : Option String)
      (retryable : Bool) (details : Option (List (String × Value)))
      (cause : Option (CommandError ⊕ String)) : CommandError
deriving Repr

/-- The `code` field of a `CommandError`. -/
def CommandError.code : CommandError → String
  | .mk c _ _ _ _ _ => c

/-- The `message` field of a `CommandError`. -/
def CommandError.message : CommandError → String
  | .mk _ m _ _ _ _ => m

/-- The `suggestion` field of a `CommandError`. -/
def CommandError.suggestion : CommandError → Option String
  | .mk _ _ s _ _ _ => s

/-- The `retryable` field of a `CommandError`. -/
def CommandError.retryable : CommandError → Bool
  | .mk _ _ _ r _ _ => r

/-- The `details` field of a `CommandError`. -/
def CommandError.details : CommandError → Option (List (String × Value))
  | .mk _ _ _ _ d _ => d

/-- The `cause` field of a `CommandError`. -/
def CommandError.cause : CommandError → Option (CommandError ⊕ String)
  | .mk _ _ _ _ _ c => c

/-- A dynamically-typed input to `wrap_error`, as Python sees it:
an existing `CommandError`, a foreign exception (carrying its type
name and its message), or any other plain value. -/
inductive PyDyn where
  | cmdError (e : CommandError) : PyDyn
  | exn (ty : String) (message : String) : PyDyn
  | plain (v : Value) : PyDyn

/-- Modelled from the spec: `wrap_error` (module `afd.core.errors`,
absent from the source tree). A `CommandError` is returned unchanged;
a foreign exception becomes `INTERNAL_ERROR` with the exception's
message and `details = [(error_type, type name)]`; any other value
becomes `UNKNOWN_ERROR` with its string rendering as message.
Behaviour pinned by `tests/test_errors.py` (`TestWrapError`). -/
def wrap_error : PyDyn → CommandError
  | .cmdError e => e
  | .exn ty msg =>
      .mk "INTERNAL_ERROR" msg none true (some [("error_type", .str ty)]) none
  | .plain v => .mk "UNKNOWN_ERROR" (pyStr v) none false none none

/-- Modelled from the spec: `rate_limit_error` (module
`afd.core.errors`, absent from the source tree). Always code
`RATE_LIMITED`, message "Rate limit exceeded", retryable; with a
`retryAfterSeconds` argument the suggestion names that many seconds
and the details carry `retry_after_seconds`; with no argument the
suggestion says to wait a moment and details are absent. Behaviour
pinned by `tests/test_errors.py` (`TestRateLimitError`). -/
def rate_limit_error : Option Int → CommandError
  | some n =>
      .mk "RATE_LIMITED" "Rate limit exceeded"
        (some ("Wait " ++ toString n ++ " seconds before retrying")) true
        (some [("retry_after_seconds", .int n)]) none
  | none =>
      .mk "RATE_LIMITED" "Rate limit exceeded"
        (some "Please wait a moment and try again") true none none

/-- Modelled from the spec: `PlanStepStatus` (module
`afd.core.metadata`, absent from the source tree). Its string values
are pinned by `tests/test_metadata.py` (`TestPlanStepStatus`):
pending, in_progress, complete, failed, skipped. -/
inductive PlanStepStatus where
  | pending : PlanStepStatus
  | in_progress : PlanStepStatus
  | complete : PlanStepStatus
  | failed : PlanStepStatus
  | skipped : PlanStepStatus
deriving Repr, DecidableEq

/-- The string value of a `PlanStepStatus` member, as pinned by
`tests/test_metadata.py` (each member compares equal to its string). -/
def PlanStepStatus.value : PlanStepStatus → String
  | .pending => "pending"
  | .in_progress => "in_progress"
  | .complete => "complete"
  | .failed => "failed"
  | .skipped => "skipped"

/-- Modelled from the spec: `Source` (module `afd.core.metadata`,
absent from the source tree) — attribution of a result to an origin.
Relevance scores are modelled as rationals. -/
structure Source where
  type : String
  id : Option String
  title : Option String
  url : Option String
  location : Option String
  accessed_at : Option String
  relevance : Option Rat
deriving Repr, DecidableEq

/-- Modelled from the spec: validated construction of a `Source`
(pydantic-style construction-time validation, pinned by
`tests/test_metadata.py` `TestSource.test_relevance_validation`):
fails with a validation error exactly when `relevance` is present and
outside `[0, 1]`. -/
def Source.make (type : String) (id : Option String) (title : Option String)
    (url : Option String) (location : Option String)
    (accessed_at : Option String) (relevance : Option Rat) :
    Except String Source :=
  match relevance with
  | some r =>
      if 0 ≤ r ∧ r ≤ 1 then
        .ok ⟨type, id, title, url, location, accessed_at, some r⟩
      else
        .error "relevance must be between 0 and 1"
  | none => .ok ⟨type, id, title, url, location, accessed_at, none⟩

/-- Modelled from the spec: `PlanStep` (module `afd.core.metadata`,
absent from the source tree) — one unit of a multi-step execution
plan. -/
structure PlanStep where
  id : String
  action : String
  status : PlanStepStatus
  description : Option String
  depends_on : List String
  progress : Option Int
  estimated_time_remaining_ms : Option Int
  result : Option Value
  error : Option Value
deriving Repr

/-- Modelled from the spec: validated construction of a `PlanStep`
(pinned by `tests/test_metadata.py`
`TestPlanStep.test_progress_validation`): fails with a validation
error exactly when `progress` is present and outside `[0, 100]`. -/
def PlanStep.make (id : String) (action : String) (status : PlanStepStatus)
    (description : Option String) (depends_on : List String)
    (progress : Option Int) (estimated_time_remaining_ms : Option Int)
    (result : Option Value) (error : Option Value) :
    Except String PlanStep :=
  match progress with
  | some p =>
      if 0 ≤ p ∧ p ≤ 100 then
        .ok ⟨id, action, status, description, depends_on, some p,
          estimated_time_remaining_ms, result, error⟩
      else
        .error "progress must be between 0 and 100"
  | none =>
      .ok ⟨id, action, status, description, depends_on, none,
        estimated_time_remaining_ms, result, error⟩

/-- Modelled from the spec: `update_step_status` (module
`afd.core.metadata`, absent from the source tree) — a pure,
non-mutating update returning a new step with the requested fields
overlaid and every unspecified field preserved. An argument of `none`
means the caller did not specify that field. Behaviour pinned by
`tests/test_metadata.py` (`TestUpdateStepStatus`). -/
def update_step_status (step : PlanStep) (status : PlanStepStatus)
    (progress : Option Int) (result : Option Value) (error : Option Value) :
    PlanStep :=
  { step with
    status := status
    progress := match progress with | some p => some p | none => step.progress
    result := match result with | some r => some r | none => step.result
    error := match error with | some e => some e | none => step.error }

/-- Modelled from the spec: `WarningSeverity` (module
`afd.core.metadata`, absent from the source tree). -/
inductive WarningSeverity where
  | info : WarningSeverity
  | warning : WarningSeverity
  | caution : WarningSeverity
deriving Repr, DecidableEq

/-- Modelled from the spec: `Warning` (module `afd.core.metadata`,
absent from the source tree) — a non-fatal caveat attached to a
result. -/
structure Warning where
  code : String
  message : String
  severity : WarningSeverity
  details : Option (List (String × Value))
deriving Repr

/-- Modelled from the spec: `Alternative` (module `afd.core.metadata`,
absent from the source tree) — a rejected or secondary option. The
payload type parameter is instantiated at JSON-like values. -/
structure Alternative where
  data : Value
  reason : String
  confidence : Option Rat
  label : Option String
deriving Repr

/-- Modelled from the spec: validated construction of an `Alternative`
(pinned by `tests/test_metadata.py`
`TestAlternative.test_confidence_validation`): fails with a validation
error exactly when `confidence` is present and outside `[0, 1]`. -/
def Alternative.make (data : Value) (reason : String)
    (confidence : Option Rat) (label : Option String) :
    Except String Alternative :=
  match confidence with
  | some c =>
      if 0 ≤ c ∧ c ≤ 1 then
        .ok ⟨data, reason, some c, label⟩
      else
        .error "confidence must be between 0 and 1"
  | none => .ok ⟨data, reason, none, label⟩

/-- Modelled from the spec: `CommandResult` (absent from the source
tree) — the discriminated success/failure envelope, a tagged union
whose `Success` variant carries a payload (never an error) and whose
`Failure` variant carries a `CommandError` (never a payload), each
with optional explainability metadata. Per the spec, `Failure` has no
`sources` field. -/
inductive CommandResult where
  | Success (data : Value) (confidence : Option Rat)
      (reasoning : Option String) (sources : List Source)
      (plan : List PlanStep) (warnings : List Warning)
      (alternatives : List Alternative) : CommandResult
  | Failure (err : CommandError) (confidence : Option Rat)
      (reasoning : Option String) (plan : List PlanStep)
      (warnings : List Warning) (alternatives : List Alternative) :
      CommandResult

/-- The boolean discriminant tag `success` of a `CommandResult`. -/
def CommandResult.success : CommandResult → Bool
  | .Success .. => true
  | .Failure .. => false

/-- The `data` payload carried by a `CommandResult`, when present. -/
def CommandResult.data : CommandResult → Option Value
  | .Success d _ _ _ _ _ _ => some d
  | .Failure .. => none

/-- The `error` carried by a `CommandResult`, when present. -/
def CommandResult.error : CommandResult → Option CommandError
  | .Success .. => none
  | .Failure e _ _ _ _ _ => some e

/-- The `alternatives` metadata of a `CommandResult`. -/
def CommandResult.alternatives : CommandResult → List Alternative
  | .Success _ _ _ _ _ _ alts => alts
  | .Failure _ _ _ _ _ alts => alts

/-- Modelled from the spec: the `success(...)` entry point (absent
from the source tree) — constructs the `Success` variant from a
payload plus optional metadata. -/
def success (data : Value) (confidence : Option Rat)
    (reasoning : Option String) (sources : List Source)
    (plan : List PlanStep) (warnings : List Warning)
    (alternatives : List Alternative) : CommandResult :=
  .Success data confidence reasoning sources plan warnings alternatives

/-- Modelled from the spec: the `error(...)` entry point (absent from
the source tree) — constructs the `Failure` variant wrapping a
`CommandError` built from the given error fields (the spec's `error`
entry point takes no `reasoning` argument). -/
def error (code : String) (message : String) (suggestion : Option String)
    (retryable : Bool) (details : Option (List (String × Value)))
    (cause : Option (CommandError ⊕ String)) (confidence : Option Rat)
    (plan : List PlanStep) (warnings : List Warning)
    (alternatives : List Alternative) : CommandResult :=
  .Failure (.mk code message suggestion retryable details cause)
    confidence none plan warnings alternatives

/-- Modelled from the spec: `TransportState` (module `afd.transports`,
absent from the source tree); string values pinned by
`tests/test_transports.py` (`TestTransportState`). -/
inductive TransportState where
  | disconnected : TransportState
  | connecting : TransportState
  | connected : TransportState
  | reconnecting : TransportState
  | err : TransportState
deriving Repr, DecidableEq

/-- Modelled from the spec: `ToolInfo` (module `afd.transports.base`,
absent from the source tree) — a transport-discovered description of a
callable tool. -/
structure ToolInfo where
  name : String
  description : Option String
  input_schema : Option Value
deriving Repr

/-- Modelled from the spec: `ToolNotFoundError` (module
`afd.transports.base`, absent from the source tree) — the failure
raised by `call_tool` on an unknown name, carrying the requested
name in `tool_name` (pinned by `tests/test_transports.py`
`TestMockTransportTools.test_tool_not_found`). -/
structure ToolNotFoundError where
  tool_name : String
deriving Repr, DecidableEq

/-- A tool handler registered on the mock transport: a function from
an argument mapping to a `CommandResult`. -/
def Handler : Type := List (String × Value) → CommandResult

/-- A tool registered via `register_tool`. -/
structure RegisteredTool where
  name : String
  handler : Handler
  description : Option String

/-- One recorded `call_tool` invocation: the tool name and the
argument mapping it was called with. -/
structure ToolCall where
  tool : String
  arguments : List (String × Value)
deriving Repr

/-- What a `call_tool` invocation hands back when it does not raise:
either a `CommandResult` produced by a registered handler, or a canned
mock response returned as-is. -/
inductive CallOutcome where
  | result (r : CommandResult) : CallOutcome
  | raw (v : Value) : CallOutcome

/-- Modelled from the spec: `MockTransport` (module `afd.transports`,
absent from the source tree) — the deterministic in-memory transport:
connection state, registered handlers, canned mock responses, the
ordered call log, and the forced-connect-failure switch. -/
structure MockTransport where
  state : TransportState
  tools : List RegisteredTool
  mock_responses : List (String × Value)
  calls : List ToolCall
  should_fail_connect : Bool
  fail_message : String

/-- A just-constructed `MockTransport`: disconnected, no tools, no
mock responses, empty call log (pinned by `tests/test_transports.py`
`TestMockTransportBasics.test_initial_state`). -/
def MockTransport.new : MockTransport :=
  ⟨.disconnected, [], [], [], false, "Connection failed"⟩

/-- Modelled from the spec: `register_tool` installs a callable
handler (with optional description) invoked on `call_tool`. -/
def MockTransport.register_tool (t : MockTransport) (name : String)
    (handler : Handler) (description : Option String) : MockTransport :=
  { t with tools := t.tools ++ [⟨name, handler, description⟩] }

/-- Modelled from the spec: `add_mock_response` installs a canned
return value for a tool name, returned as-is by `call_tool`. -/
def MockTransport.add_mock_response (t : MockTransport) (name : String)
    (response : Value) : MockTransport :=
  { t with mock_responses := t.mock_responses ++ [(name, response)] }

/-- Modelled from the spec: `set_should_fail_connect` forces the next
`connect()` to raise a connection error with the given message. -/
def MockTransport.set_should_fail_connect (t : MockTransport)
    (flag : Bool) (message : String) : MockTransport :=
  { t with should_fail_connect := flag, fail_message := message }

/-- Modelled from the spec: `connect()` — on success the state becomes
`connected`; when `should_fail_connect` is set, the state becomes the
failure state and a connection error with the configured message is
raised (returned here as the second component). -/
def MockTransport.connect (t : MockTransport) :
    MockTransport × Option String :=
  if t.should_fail_connect then
    ({ t with state := .err }, some t.fail_message)
  else
    ({ t with state := .connected }, none)

/-- Modelled from the spec: `disconnect()` returns the transport to
`disconnected` unconditionally. -/
def MockTransport.disconnect (t : MockTransport) : MockTransport :=
  { t with state := .disconnected }

/-- Modelled from the spec: `list_tools()` returns the currently
advertised tool set — the registered tools followed by the names that
have canned mock responses. The repository's tests call it without
connecting first (`TestMockTransportTools.test_list_tools`,
`TestMockTransportCallRecording.test_reset`), so the mock does not
gate it on connection state. -/
def MockTransport.list_tools (t : MockTransport) : List ToolInfo :=
  t.tools.map (fun r => ⟨r.name, r.description, none⟩) ++
    t.mock_responses.map (fun p => ⟨p.1, none, none⟩)

/-- Modelled from the spec: `call_tool(name, arguments)` — the
invocation is appended to the call log in call order regardless of
outcome; a canned mock response for the name is returned as-is
(bypassing any handler); otherwise a registered handler is invoked;
otherwise a `ToolNotFoundError` carrying the requested name is raised
(the `Except.error` branch), not returned as a `Failure` result. -/
def MockTransport.call_tool (t : MockTransport) (name : String)
    (arguments : List (String × Value)) :
    MockTransport × Except ToolNotFoundError CallOutcome :=
  let logged : MockTransport :=
    { t with calls := t.calls ++ [⟨name, arguments⟩] }
  match t.mock_responses.lookup name with
  | some v => (logged, .ok (.raw v))
  | none =>
      match t.tools.find? (fun r => r.name == name) with
      | some r => (logged, .ok (.result (r.handler arguments)))
      | none => (logged, .error ⟨name⟩)

/-- Modelled from the spec: `get_calls(name)` returns the full ordered
sequence of recorded invocations for that tool. -/
def MockTransport.get_calls (t : MockTransport) (name : String) :
    List ToolCall :=
  t.calls.filter (fun c => c.tool == name)

/-- Modelled from the spec: `call_count(name?)` returns the count for
one tool, or the total across all tools when no name is given. -/
def MockTransport.call_count (t : MockTransport) (name : Option String) :
    Nat :=
  match name with
  | some n => (t.get_calls n).length
  | none => t.calls.length

/-- Modelled from the spec: `last_call(name)` returns the most recent
recorded invocation for that tool, or absence if none. -/
def MockTransport.last_call (t : MockTransport) (name : String) :
    Option ToolCall :=
  (t.get_calls name).getLast?

/-- Modelled from the spec: `clear_calls()` empties the log without
altering registered tools, responses or connection state. -/
def MockTransport.clear_calls (t : MockTransport) : MockTransport :=
  { t with calls := [] }

/-- Modelled from the spec: `reset()` returns the transport to its
just-constructed state. -/
def MockTransport.reset (_t : MockTransport) : MockTransport :=
  MockTransport.new

/-- Python `f"\x7bconfidence:.0%\x7d"` from
`src/afd/cli/output.py` (`_print_alternatives`): the confidence as a
whole-number percentage. Numeric rounding is modelled with `round` on
rationals; no verified property depends on the tie-breaking rule. -/
def formatPct (c : Rat) : String :=
  toString (round (c * 100)) ++ "%"

/-- The row `_print_alternatives` adds to the table for one
alternative (`src/afd/cli/output.py`, lines 171-188): the truncated
payload rendering, the reason, and the formatted confidence. -/
def altRow (alt : Alternative) : String × String × String :=
  let confidence_str : String :=
    match alt.confidence with
    | some c => formatPct c
    | none => "-"
  let s : String := pyStr alt.data
  let data_str : String :=
    match alt.data with
    | .dict _ => if s.length > 50 then s.take 50 ++ "..." else s
    | _ => s.take 50
  (data_str, alt.reason, confidence_str)

/-- The rows of the alternatives table built by `_print_alternatives`
(`src/afd/cli/output.py`, line 170): one `add_row` per entry of
`alternatives[:5]`, in iteration order. -/
def printAlternativesRows (alternatives : List Alternative) :
    List (String × String × String) :=
  (alternatives.take 5).foldl (fun rows alt => rows ++ [altRow alt]) []

/-- The alternatives rows rendered for a non-JSON success result:
`_print_success_result` (`src/afd/cli/output.py`, lines 97-99) calls
`_print_alternatives` only when the list is non-empty. -/
def successAlternativesRows (alternatives : List Alternative) :
    List (String × String × String) :=
  if alternatives.isEmpty then [] else printAlternativesRows alternatives

/-- The `status_icons` table of `_print_plan`
(`src/afd/cli/output.py`, lines 149-155). -/
def status_icons : List (String × String) :=
  [("pending", "⏳"), ("in_progress", "🔄"), ("completed", "✅"),
    ("failed", "❌"), ("skipped", "⏭️")]

/-- The icon `_print_plan` renders for a step status string
(`src/afd/cli/output.py`, line 156): `status_icons.get(str(status),
"•")`. -/
def planStepIcon (status : String) : String :=
  (status_icons.lookup status).getD "•"

end AFD

/-- The transport reached by the spec's call-log ordering sequence:
mock responses for "a" and "b", connect, then call "a" with v=1,
"b" with v=2, and "a" with v=3. -/
def afdC7Transport : AFD.MockTransport :=
  let t0 := AFD.MockTransport.new
  let t1 := t0.add_mock_response "a" (.str "response_a")
  let t2 := t1.add_mock_response "b" (.str "response_b")
  let t3 := (t2.connect).1
  let t4 := (t3.call_tool "a" [("v", .int 1)]).1
  let t5 := (t4.call_tool "b" [("v", .int 2)]).1
  (t5.call_tool "a" [("v", .int 3)]).1

/-- Helper: a key absent from an association list's keys has no
lookup result. -/
theorem afd_lookup_none_of_not_mem {β : Type} (l : List (String × β))
    (k : String) (h : k ∉ l.map Prod.fst) : l.lookup k = none := by
  induction l with
  | nil => rfl
  | cons p rest ih =>
    simp only [List.map_cons, List.mem_cons, not_or] at h
    obtain ⟨h1, h2⟩ := h
    have hb : (k == p.1) = false := beq_eq_false_iff_ne.mpr h1
    simp only [List.lookup, hb]
    exact ih h2

/-- Helper: a successful association-list lookup means the key is
among the keys. -/
theorem afd_mem_keys_of_lookup_some {β : Type} (l : List (String × β))
    (k : String) (v : β) (h : l.lookup k = some v) :
    k ∈ l.map Prod.fst := by
  induction l with
  | nil => simp [List.lookup] at h
  | cons p rest ih =>
    by_cases hk : k = p.1
    · simp [hk]
    · have hb : (k == p.1) = false := beq_eq_false_iff_ne.mpr hk
      simp only [List.lookup, hb] at h
      simp [ih h]

/-- Helper: folding row-appends over a list builds the mapped list. -/
theorem afd_foldl_append_singleton {α β : Type} (f : α → β) (l : List α)
    (init : List β) :
    l.foldl (fun rows a => rows ++ [f a]) init = init ++ l.map f := by
  induction l generalizing init with
  | nil => simp
  | cons x xs ih => simp [ih]

/-- C1: for every `CommandResult` — whether built by the `success`
entry point, the `error` entry point, or direct construction — the
boolean `success` tag is the sole discriminant and the variants are
exclusive: a true tag means the payload is present and no error is
carried, and a false tag means an error is present and no payload is
carried. -/
theorem afd_c1_result_tag_discriminates :
    (∀ r : AFD.CommandResult,
      (r.success = true ↔ (r.data.isSome = true ∧ r.error = none)) ∧
      (r.success = false ↔ (r.error.isSome = true ∧ r.data = none))) ∧
    (∀ d c rsn src pl w alts,
      (AFD.success d c rsn src pl w alts).success = true) ∧
    (∀ code msg sg rty dt cs c pl w alts,
      (AFD.error code msg sg rty dt cs c pl w alts).success = false) := by
  refine ⟨fun r => ?_, fun _ _ _ _ _ _ _ => rfl,
    fun _ _ _ _ _ _ _ _ _ _ => rfl⟩
  cases r <;>
    simp [AFD.CommandResult.success, AFD.CommandResult.data,
      AFD.CommandResult.error]

/-- C2: `wrap_error` classifies its input in exactly three ways and is
idempotent — an existing `CommandError` is returned unchanged (so
re-wrapping is the identity), a foreign exception becomes an
`INTERNAL_ERROR` with the exception's message and
`details = [(error_type, type name)]`, and any other value (e.g. a
plain string) becomes an `UNKNOWN_ERROR` with that string as the
message. -/
theorem afd_c2_wrap_error_classifies :
    (∀ e : AFD.CommandError, AFD.wrap_error (.cmdError e) = e) ∧
    (∀ e : AFD.CommandError,
      AFD.wrap_error (.cmdError (AFD.wrap_error (.cmdError e))) =
        AFD.wrap_error (.cmdError e) ∧
      AFD.wrap_error (.cmdError e) = e) ∧
    (∀ ty msg : String,
      (AFD.wrap_error (.exn ty msg)).code = "INTERNAL_ERROR" ∧
      (AFD.wrap_error (.exn ty msg)).message = msg ∧
      (AFD.wrap_error (.exn ty msg)).details =
        some [("error_type", .str ty)]) ∧
    (∀ s : String,
      (AFD.wrap_error (.plain (.str s))).code = "UNKNOWN_ERROR" ∧
      (AFD.wrap_error (.plain (.str s))).message = s) := by
  exact ⟨fun e => rfl, fun e => ⟨rfl, rfl⟩,
    fun ty msg => ⟨rfl, rfl, rfl⟩, fun s => ⟨rfl, rfl⟩⟩

/-- C3 counterexample: the claim says `list_tools` is valid only in
the `connected` state, but — exactly as in
`tests/test_transports.py` `TestMockTransportTools.test_list_tools` —
a mock transport that was never connected (state `disconnected`)
answers `list_tools` with the full advertised tool set. -/
theorem afd_c3_list_tools_counterexample :
    ((AFD.MockTransport.new.register_tool "tool1"
        (fun _ => AFD.success (.dict []) none none [] [] [] [])
        (some "First tool")).add_mock_response "tool2"
        (.dict [])).state = AFD.TransportState.disconnected ∧
    (((AFD.MockTransport.new.register_tool "tool1"
        (fun _ => AFD.success (.dict []) none none [] [] [] [])
        (some "First tool")).add_mock_response "tool2"
        (.dict [])).list_tools.map AFD.ToolInfo.name) =
      ["tool1", "tool2"] := by
  exact ⟨rfl, rfl⟩

/-- C3 amended: `MockTransport.list_tools` is callable in every
connection state — it depends only on the registered tools and mock
responses, so changing the state (including `disconnect`) leaves its
answer unchanged, and after `reset` it returns the empty list. -/
theorem afd_c3_list_tools_any_state :
    (∀ (t : AFD.MockTransport) (s : AFD.TransportState),
      ({ t with state := s } : AFD.MockTransport).list_tools =
        t.list_tools) ∧
    (∀ t : AFD.MockTransport, t.disconnect.list_tools = t.list_tools) ∧
    (∀ t : AFD.MockTransport, t.reset.list_tools = []) := by
  exact ⟨fun t s => rfl, fun t => rfl, fun t => rfl⟩

/-- C4: construction of a `Source` with `relevance`, an `Alternative`
with `confidence`, or a `PlanStep` with `progress` fails with a
validation error exactly when the value lies outside its declared
bound (`[0, 1]` for relevance and confidence, `[0, 100]` for
progress), and succeeds at the boundary values with the stored field
equal to the given value. -/
theorem afd_c4_bound_validation :
    (∀ (ty : String) (id title url loc acc : Option String) (r : Rat),
      (AFD.Source.make ty id title url loc acc (some r)).isOk = true ↔
        (0 ≤ r ∧ r ≤ 1)) ∧
    (AFD.Source.make "api" none none none none none (some 0) =
      .ok ⟨"api", none, none, none, none, none, some 0⟩) ∧
    (AFD.Source.make "api" none none none none none (some 1) =
      .ok ⟨"api", none, none, none, none, none, some 1⟩) ∧
    (∀ (d : AFD.Value) (reason : String) (lbl : Option String) (c : Rat),
      (AFD.Alternative.make d reason (some c) lbl).isOk = true ↔
        (0 ≤ c ∧ c ≤ 1)) ∧
    (AFD.Alternative.make (.str "x") "y" (some 0) none =
      .ok ⟨.str "x", "y", some 0, none⟩) ∧
    (AFD.Alternative.make (.str "x") "y" (some 1) none =
      .ok ⟨.str "x", "y", some 1, none⟩) ∧
    (∀ (id action : String) (st : AFD.PlanStepStatus)
        (desc : Option String) (dep : List String)
        (est : Option Int) (res er : Option AFD.Value) (p : Int),
      (AFD.PlanStep.make id action st desc dep (some p) est res er).isOk
          = true ↔ (0 ≤ p ∧ p ≤ 100)) ∧
    (AFD.PlanStep.make "s" "a" .pending none [] (some 0) none none none =
      .ok ⟨"s", "a", .pending, none, [], some 0, none, none, none⟩) ∧
    (AFD.PlanStep.make "s" "a" .pending none [] (some 100) none none none =
      .ok ⟨"s", "a", .pending, none, [], some 100, none, none, none⟩) := by
  refine ⟨fun ty id title url loc acc r => ?_, rfl, rfl,
    fun d reason lbl c => ?_, rfl, rfl,
    fun id action st desc dep est res er p => ?_, rfl, rfl⟩
  · simp only [AFD.Source.make]
    split_ifs with h <;> simp [Except.isOk, Except.toBool, h]
  · simp only [AFD.Alternative.make]
    split_ifs with h <;> simp [Except.isOk, Except.toBool, h]
  · simp only [AFD.PlanStep.make]
    split_ifs with h <;> simp [Except.isOk, Except.toBool, h]

/-- C5: `update_step_status` is a pure, non-mutating update — for
every step, updating only `status` and `result` yields a new step
carrying the requested status and result while `id`, `action`,
`description`, `depends_on`, `progress`,
`estimated_time_remaining_ms` and `error` all equal those of the
input step. -/
theorem afd_c5_update_step_status_frame :
    ∀ (s : AFD.PlanStep) (st : AFD.PlanStepStatus) (r : AFD.Value),
      (AFD.update_step_status s st none (some r) none).status = st ∧
      (AFD.update_step_status s st none (some r) none).result = some r ∧
      (AFD.update_step_status s st none (some r) none).description =
        s.description ∧
      (AFD.update_step_status s st none (some r) none).depends_on =
        s.depends_on ∧
      (AFD.update_step_status s st none (some r) none).id = s.id ∧
      (AFD.update_step_status s st none (some r) none).action = s.action ∧
      (AFD.update_step_status s st none (some r) none).progress =
        s.progress ∧
      (AFD.update_step_status s st none (some r) none).estimated_time_remaining_ms
        = s.estimated_time_remaining_ms ∧
      (AFD.update_step_status s st none (some r) none).error = s.error := by
  exact fun s st r => ⟨rfl, rfl, rfl, rfl, rfl, rfl, rfl, rfl, rfl⟩

/-- C6: for every tool name with no canned mock response and no
registered handler, `call_tool` on that name raises a
`ToolNotFoundError` carrying the requested name in `tool_name` — the
`Except.error` branch, not an ordinary `Failure` result. -/
theorem afd_c6_call_tool_not_found (t : AFD.MockTransport)
    (name : String) (args : List (String × AFD.Value))
    (hmock : name ∉ t.mock_responses.map Prod.fst)
    (htool : name ∉ t.tools.map AFD.RegisteredTool.name) :
    (t.call_tool name args).2 = Except.error ⟨name⟩ := by
  have h1 : t.mock_responses.lookup name = none :=
    afd_lookup_none_of_not_mem _ _ hmock
  have h2 : t.tools.find? (fun r => r.name == name) = none := by
    refine List.find?_eq_none.mpr fun r hr => ?_
    have : r.name ∈ t.tools.map AFD.RegisteredTool.name :=
      List.mem_map_of_mem _ hr
    intro hb
    exact htool (beq_iff_eq.mp hb ▸ this)
  simp [AFD.MockTransport.call_tool, h1, h2]

/-- C6 witness: on a freshly connected mock transport the name
"nonexistent" is neither mocked nor registered, and calling it raises
`ToolNotFoundError` with `tool_name = "nonexistent"`. -/
theorem afd_c6_witness :
    ("nonexistent" ∉
      (AFD.MockTransport.new.connect).1.mock_responses.map Prod.fst) ∧
    ("nonexistent" ∉
      (AFD.MockTransport.new.connect).1.tools.map
        AFD.RegisteredTool.name) ∧
    (((AFD.MockTransport.new.connect).1.call_tool "nonexistent" []).2 =
      Except.error ⟨"nonexistent"⟩) :=
  ⟨by simp [AFD.MockTransport.new, AFD.MockTransport.connect],
    by simp [AFD.MockTransport.new, AFD.MockTransport.connect],
    afd_c6_call_tool_not_found _ _ _
      (by simp [AFD.MockTransport.new, AFD.MockTransport.connect])
      (by simp [AFD.MockTransport.new, AFD.MockTransport.connect])⟩

/-- C7: `MockTransport` records every `call_tool` invocation in call
order, keyed by tool name; after calling tool "a" with v=1, tool "b"
with v=2, and tool "a" with v=3, `get_calls "a"` yields exactly the
two recorded invocations with arguments v=1 then v=3 in that order,
`call_count "a"` is 2, and the total `call_count` is 3. -/
theorem afd_c7_call_recording :
    (∀ (t : AFD.MockTransport) (name : String)
        (args : List (String × AFD.Value)),
      ((t.call_tool name args).1).calls = t.calls ++ [⟨name, args⟩]) ∧
    ((afdC7Transport.get_calls "a").map AFD.ToolCall.arguments =
      [[("v", .int 1)], [("v", .int 3)]]) ∧
    afdC7Transport.call_count (some "a") = 2 ∧
    afdC7Transport.call_count none = 3 := by
  refine ⟨fun t name args => ?_, rfl, rfl, rfl⟩
  unfold AFD.MockTransport.call_tool
  cases t.mock_responses.lookup name with
  | some v => rfl
  | none =>
      cases t.tools.find? (fun r => r.name == name) with
      | some r => rfl
      | none => rfl

/-- C8: `rate_limit_error` always yields code `RATE_LIMITED`, message
"Rate limit exceeded" and `retryable = true`; with a
`retryAfterSeconds` argument n its suggestion contains the substring
"n seconds" and its details equal `[(retry_after_seconds, n)]`; with
no argument its suggestion contains "wait a moment" and details are
absent. -/
theorem afd_c8_rate_limit_error :
    (∀ n : Int,
      (AFD.rate_limit_error (some n)).code = "RATE_LIMITED" ∧
      (AFD.rate_limit_error (some n)).message = "Rate limit exceeded" ∧
      (AFD.rate_limit_error (some n)).retryable = true ∧
      (∃ pre post : String,
        (AFD.rate_limit_error (some n)).suggestion =
          some ((pre ++ (toString n ++ " seconds")) ++ post)) ∧
      (AFD.rate_limit_error (some n)).details =
        some [("retry_after_seconds", .int n)]) ∧
    ((AFD.rate_limit_error none).code = "RATE_LIMITED" ∧
      (AFD.rate_limit_error none).message = "Rate limit exceeded" ∧
      (AFD.rate_limit_error none).retryable = true ∧
      (∃ pre post : String,
        (AFD.rate_limit_error none).suggestion =
          some ((pre ++ "wait a moment") ++ post)) ∧
      (AFD.rate_limit_error none).details = none) := by
  refine ⟨fun n => ⟨rfl, rfl, rfl, ⟨"Wait ", " before retrying", ?_⟩, rfl⟩,
    rfl, rfl, rfl, ⟨"Please ", " and try again", ?_⟩, rfl⟩
  · simp only [AFD.rate_limit_error, AFD.CommandError.suggestion,
      String.append_assoc]
    rfl
  · rfl

/-- C9: when the CLI formats a non-JSON success result, the rendered
alternatives table holds exactly `min n 5` rows for an alternatives
list of length n, taken from the front of the list in order. -/
theorem afd_c9_alternatives_limited_to_five :
    ∀ alternatives : List AFD.Alternative,
      (AFD.successAlternativesRows alternatives).length =
        min alternatives.length 5 ∧
      AFD.successAlternativesRows alternatives =
        (alternatives.take 5).map AFD.altRow := by
  intro alts
  have hrows : AFD.printAlternativesRows alts =
      (alts.take 5).map AFD.altRow := by
    simpa using afd_foldl_append_singleton AFD.altRow (alts.take 5) []
  have hsucc : AFD.successAlternativesRows alts =
      (alts.take 5).map AFD.altRow := by
    cases alts with
    | nil => rfl
    | cons x xs =>
        simpa [AFD.successAlternativesRows] using hrows
  refine ⟨?_, hsucc⟩
  rw [hsucc]
  simp [List.length_take, Nat.min_comm]

/-- C10: the CLI plan renderer maps only the literal status strings
"pending", "in_progress", "completed", "failed" and "skipped" to
dedicated icons, so a step whose status value is "complete" (the
`PlanStepStatus` completed-status value) falls through to the fallback
bullet "•" rather than the checkmark, while every other defined status
value gets its dedicated icon. -/
theorem afd_c10_plan_icon_complete_fallback :
    AFD.planStepIcon AFD.PlanStepStatus.complete.value = "•" ∧
    AFD.planStepIcon AFD.PlanStepStatus.complete.value ≠ "✅" ∧
    AFD.planStepIcon AFD.PlanStepStatus.pending.value = "⏳" ∧
    AFD.planStepIcon AFD.PlanStepStatus.in_progress.value = "🔄" ∧
    AFD.planStepIcon AFD.PlanStepStatus.failed.value = "❌" ∧
    AFD.planStepIcon AFD.PlanStepStatus.skipped.value = "⏭️" ∧
    (∀ s : String, AFD.planStepIcon s = "•" ∨
      s ∈ ["pending", "in_progress", "completed", "failed", "skipped"]) := by
  refine ⟨rfl, by decide, rfl, rfl, rfl, rfl, fun s => ?_⟩
  cases h : AFD.status_icons.lookup s with
  | none => left; simp [AFD.planStepIcon, h]
  | some v =>
      right
      have := afd_mem_keys_of_lookup_some AFD.status_icons s v h
      simpa [AFD.status_icons] using this
